import Mathlib

/-
Verification of the asgard-sdk-go streaming client and its event/message/error
data model against its natural-language specification.

The Go sources embedded here:
  pkg/models (SseEventType constants, GenericBotSseEvent, facts, ErrorDetail),
  pkg/client/streamer.go (NewStreaming / connect / Next / Current / Err / Close),
  pkg/client/bot_provider.go (envelope handling of the synchronous calls).

Conventions of the embedding:
  - Go strings are Lean String; Go error values are represented by the text
    their Error() method renders (the only thing the claims inspect).
  - The bounded handoff channel is represented by the list of items the
    producer has pushed and not yet consumed (front = oldest), plus a flag
    recording whether the producer has closed the channel. FIFO order of a
    Go channel is preserved by list order.
  - Opaque interface\x7b\x7d-typed JSON payloads are never inspected by the
    client, so they are modelled by their raw text.
  - The consumer's Next() is a step function on the stream state. Go's
    select between the channel receive and ctx.Done() is nondeterministic
    when both can proceed; the deterministic function nextStep fixes the
    channel branch (exact for a non-cancelled context), and the relation
    NextStep captures the full select nondeterminism.
-/

namespace AsgardSdk

/-- Go: type SseEventType string (pkg/models). -/
abbrev SseEventType := String

def SseEventTypeRunInit : SseEventType := "asgard.run.init"

def SseEventTypeRunDone : SseEventType := "asgard.run.done"

def SseEventTypeRunError : SseEventType := "asgard.run.error"

def SseEventTypeProcessStart : SseEventType := "asgard.process.start"

def SseEventTypeProcessComplete : SseEventType := "asgard.process.complete"

def SseEventTypeMessageStart : SseEventType := "asgard.message.start"

def SseEventTypeMessageDelta : SseEventType := "asgard.message.delta"

def SseEventTypeMessageComplete : SseEventType := "asgard.message.complete"

def SseEventTypeToolCallStart : SseEventType := "asgard.tool_call.start"

def SseEventTypeToolCallComplete : SseEventType := "asgard.tool_call.complete"

/-- The ten SseEventType constants in declaration order (pkg/models). -/
def sseEventTypeConstants : List SseEventType :=
  [SseEventTypeRunInit, SseEventTypeRunDone, SseEventTypeRunError,
   SseEventTypeProcessStart, SseEventTypeProcessComplete,
   SseEventTypeMessageStart, SseEventTypeMessageDelta, SseEventTypeMessageComplete,
   SseEventTypeToolCallStart, SseEventTypeToolCallComplete]

/-- An opaque, lazily-interpreted JSON value (a Go interface\x7b\x7d holding
decoded JSON). The client never inspects these, so they are modelled by their
raw text. -/
structure OpaqueJson where
  raw : String
  deriving DecidableEq

/-- Go: ErrorLocation (pkg/models). -/
structure ErrorLocation where
  Namespace : String
  WorkflowName : String
  ProcessorName : String
  ProcessorType : String
  ProcessorConfigName : String
  ProcessId : String
  deriving DecidableEq

/-- Go: ErrorDetail (pkg/models). -/
structure ErrorDetail where
  Message : String
  Code : String
  Inner : String
  Location : ErrorLocation
  deriving DecidableEq

/-- Go: func (e *ErrorDetail) Error() string (pkg/models). -/
def ErrorDetail.errorString (e : ErrorDetail) : String :=
  if e.Inner = "" then
    e.Code ++ ": " ++ e.Message ++ " (at namespace=" ++ e.Location.Namespace ++
      ", workflowName=" ++ e.Location.WorkflowName ++ ", processorName=" ++
      e.Location.ProcessorName ++ ", processorType=" ++ e.Location.ProcessorType ++ ")"
  else
    e.Code ++ ": " ++ e.Message ++ " (at namespace=" ++ e.Location.Namespace ++
      ", workflowName=" ++ e.Location.WorkflowName ++ ", processorName=" ++
      e.Location.ProcessorName ++ ", processorType=" ++ e.Location.ProcessorType ++
      ") - caused by: " ++ e.Inner

/-- What fmt's %s verb renders for an ErrorLocation value: ErrorLocation does
not implement Stringer or error (ErrorDetail.Error has a pointer receiver and
these are struct values), so fmt falls back to the default struct rendering
\x7bfield0 field1 ...\x7d. -/
def ErrorLocation.goFmt (l : ErrorLocation) : String :=
  "\x7b" ++ l.Namespace ++ " " ++ l.WorkflowName ++ " " ++ l.ProcessorName ++ " " ++
    l.ProcessorType ++ " " ++ l.ProcessorConfigName ++ " " ++ l.ProcessId ++ "\x7d"

/-- What fmt's %s verb renders for an ErrorDetail struct value. The Error()
method of ErrorDetail is declared on the pointer receiver, so the value passed
to fmt.Errorf in Next does not implement the error interface and fmt uses the
default struct rendering. -/
def ErrorDetail.goFmt (e : ErrorDetail) : String :=
  "\x7b" ++ e.Message ++ " " ++ e.Code ++ " " ++ e.Inner ++ " " ++ e.Location.goFmt ++ "\x7d"

/-- Go: BufferedMessage (pkg/models). The rich template field is declarative
shape-only data that the streaming client never inspects, kept opaque. -/
structure MessageTemplate where
  raw : OpaqueJson
  deriving DecidableEq

/-- Go: BufferedMessage (pkg/models). -/
structure BufferedMessage where
  MessageId : String
  ReplyToCustomMessageId : String
  Text : String
  Payload : OpaqueJson
  IsDebug : Bool
  Idx : Option Int
  Template : Option MessageTemplate
  deriving DecidableEq

/-- Go: ToolCall (pkg/models). -/
structure ToolCall where
  ToolsetName : String
  ToolName : String
  Parameter : OpaqueJson
  deriving DecidableEq

/-- Go: GenericBotSseEventFactRunInit (pkg/models), an empty struct. -/
structure GenericBotSseEventFactRunInit where
  deriving DecidableEq

/-- Go: GenericBotSseEventFactRunDone (pkg/models), an empty struct. -/
structure GenericBotSseEventFactRunDone where
  deriving DecidableEq

/-- Go: GenericBotSseEventFactRunError (pkg/models). -/
structure GenericBotSseEventFactRunError where
  Error : ErrorDetail
  deriving DecidableEq

/-- Go: GenericBotSseEventFactProcessStart (pkg/models). -/
structure GenericBotSseEventFactProcessStart where
  ProcessId : String
  Task : Option OpaqueJson
  deriving DecidableEq

/-- Go: GenericBotSseEventFactProcessComplete (pkg/models). -/
structure GenericBotSseEventFactProcessComplete where
  ProcessId : String
  TaskResult : Option OpaqueJson
  deriving DecidableEq

/-- Go: GenericBotSseEventFactMessage (pkg/models). -/
structure GenericBotSseEventFactMessage where
  Message : BufferedMessage
  deriving DecidableEq

/-- Go: GenericBotSseEventFactToolCallStart (pkg/models). -/
structure GenericBotSseEventFactToolCallStart where
  ProcessId : String
  CallSeq : Int
  ToolCall : ToolCall
  deriving DecidableEq

/-- Go: GenericBotSseEventFactToolCallComplete (pkg/models). -/
structure GenericBotSseEventFactToolCallComplete where
  ProcessId : String
  CallSeq : Int
  ToolCall : ToolCall
  ToolCallResult : OpaqueJson
  deriving DecidableEq

/-- Go: GenericBotSseEventFact (pkg/models): the polymorphic event data as an
all-optional-fields struct; each field is a nilable pointer in Go. -/
structure GenericBotSseEventFact where
  RunInit : Option GenericBotSseEventFactRunInit
  RunDone : Option GenericBotSseEventFactRunDone
  RunError : Option GenericBotSseEventFactRunError
  ProcessStart : Option GenericBotSseEventFactProcessStart
  ProcessComplete : Option GenericBotSseEventFactProcessComplete
  MessageStart : Option GenericBotSseEventFactMessage
  MessageDelta : Option GenericBotSseEventFactMessage
  MessageComplete : Option GenericBotSseEventFactMessage
  ToolCallStart : Option GenericBotSseEventFactToolCallStart
  ToolCallComplete : Option GenericBotSseEventFactToolCallComplete
  deriving DecidableEq

/-- The all-none fact (a Go zero value of GenericBotSseEventFact). -/
def emptyFact : GenericBotSseEventFact :=
  ⟨none, none, none, none, none, none, none, none, none, none⟩

/-- Go: GenericBotSseEvent (pkg/models). -/
structure GenericBotSseEvent where
  EventType : SseEventType
  RequestId : String
  EventId : String
  Namespace : String
  BotProviderName : String
  CustomChannelId : String
  Fact : GenericBotSseEventFact
  deriving DecidableEq

/-- Go: GenericBotSseEventWrapper (pkg/models): a channel item carrying either
a decoded event or a connection/decode error (represented by its text). -/
structure GenericBotSseEventWrapper where
  Event : Option GenericBotSseEvent
  ConnectionError : Option String
  deriving DecidableEq

/-- A wrapper carrying a successfully decoded event (streamer.go connect,
success branch of the SubscribeToAll callback). -/
def okWrap (e : GenericBotSseEvent) : GenericBotSseEventWrapper :=
  ⟨some e, none⟩

/-- State of one consumer-facing stream (streamer.go botProviderStream):
items = channel contents not yet received (front = oldest, FIFO);
chanClosed = the producer goroutine has closed eventChan;
currentEvent, err, closed = the mutex-guarded consumer fields;
ctxCancelled = the caller-supplied context has been cancelled. -/
structure StreamState where
  items : List GenericBotSseEventWrapper
  chanClosed : Bool
  currentEvent : Option GenericBotSseEvent
  err : Option String
  closed : Bool
  ctxCancelled : Bool
  deriving DecidableEq

/-- The text of context.Canceled, which ctx.Err() returns after cancellation. -/
def ctxCanceledText : String := "context canceled"

/-- Error text built by Next for a run.error event:
fmt.Errorf with the ErrorDetail struct value (default struct rendering,
see ErrorDetail.goFmt). -/
def runErrorText (f : GenericBotSseEventFactRunError) : String :=
  "SSE stream error: " ++ f.Error.goFmt

/-- Outcome of one Next() call: it returns a Bool, blocks (no channel item and
no cancellation), or panics (nil-pointer dereference). -/
inductive NextOutcome where
  | ret (b : Bool)
  | blocked
  | panics
  deriving DecidableEq

/-- Body of the channel-receive case of Next's select for one received wrapper
(streamer.go Next, lines 163-181). Accessing ev.Event.EventType when Event is
nil, or ev.Event.Fact.RunError.Error when RunError is nil, dereferences a nil
pointer. -/
def recvWrapper (s : StreamState) (w : GenericBotSseEventWrapper)
    (rest : List GenericBotSseEventWrapper) : NextOutcome × StreamState :=
  match w.ConnectionError with
  | some ce => (NextOutcome.ret false, { s with items := rest, err := some ce })
  | none =>
    match w.Event with
    | none => (NextOutcome.panics, { s with items := rest })
    | some e =>
      if e.EventType = SseEventTypeRunError then
        match e.Fact.RunError with
        | some f => (NextOutcome.ret false, { s with items := rest, err := some (runErrorText f) })
        | none => (NextOutcome.panics, { s with items := rest })
      else
        (NextOutcome.ret true, { s with items := rest, currentEvent := some e })

/-- The channel-receive case of Next's select, assuming the receive can
proceed: either a buffered item is taken, or the channel is closed and the
receive yields ok = false. -/
def recvReady (s : StreamState) : NextOutcome × StreamState :=
  match s.items with
  | [] => (NextOutcome.ret false, s)
  | w :: rest => recvWrapper s w rest

/-- One Next() call (streamer.go lines 154-187), as a deterministic function:
the terminal check on closed/err, then the select. When the context is
cancelled while a channel receive can also proceed, Go chooses between the two
select cases pseudo-randomly; this function fixes the channel branch and is
the exact semantics whenever ctxCancelled = false (the NextStep relation below
captures the full nondeterminism). -/
def nextStep (s : StreamState) : NextOutcome × StreamState :=
  if s.closed || s.err.isSome then (NextOutcome.ret false, s)
  else
    match s.items, s.chanClosed with
    | [], false =>
      if s.ctxCancelled then
        (NextOutcome.ret false, { s with err := some ctxCanceledText })
      else
        (NextOutcome.blocked, s)
    | _, _ => recvReady s

/-- One Next() call as a relation, capturing the select nondeterminism: when
the context is cancelled and a channel receive can also proceed, either select
case may be chosen. -/
inductive NextStep : StreamState → NextOutcome → StreamState → Prop where
  | terminal (s : StreamState) :
      s.closed = true ∨ s.err.isSome = true → NextStep s (NextOutcome.ret false) s
  | chanRecv (s : StreamState) :
      s.closed = false → s.err = none → (s.items ≠ [] ∨ s.chanClosed = true) →
      NextStep s (recvReady s).1 (recvReady s).2
  | ctxDone (s : StreamState) :
      s.closed = false → s.err = none → s.ctxCancelled = true →
      NextStep s (NextOutcome.ret false) { s with err := some ctxCanceledText }

/-- Current() (streamer.go lines 190-194). -/
def currentOf (s : StreamState) : Option GenericBotSseEvent := s.currentEvent

/-- Err() (streamer.go lines 197-201). -/
def errOf (s : StreamState) : Option String := s.err

/-- Close() (streamer.go lines 204-218): idempotent; marks closed and clears
only the current-event reference; always returns a nil error. -/
def closeStream (s : StreamState) : Option String × StreamState :=
  if s.closed then (none, s)
  else (none, { s with closed := true, currentEvent := none })

/-- Iterated Next(): the list of (returned Bool or panic, Current() after the
call, Err() after the call) observations for n consecutive calls, together
with the final state. -/
def runNext : StreamState → Nat →
    List (NextOutcome × Option GenericBotSseEvent × Option String) × StreamState
  | s, 0 => ([], s)
  | s, n + 1 =>
    let r := nextStep s
    let t := runNext r.2 n
    ((r.1, r.2.currentEvent, r.2.err) :: t.1, t.2)

/-- One SSE frame as seen by the producer callback (streamer.go connect,
lines 108-134), abstracted by its json.Unmarshal outcome: the data field
either decodes to an event or fails with an error message. -/
inductive SseFrame where
  | ok (e : GenericBotSseEvent)
  | malformed (jsonErr : String)
  deriving DecidableEq

/-- The wrapper the producer callback pushes for one frame (streamer.go
lines 115-133). -/
def decodeFrame : SseFrame → GenericBotSseEventWrapper
  | SseFrame.ok e => ⟨some e, none⟩
  | SseFrame.malformed m => ⟨none, some ("failed to unmarshal event: " ++ m)⟩

/-- How the producer goroutine ends (streamer.go lines 137-148): a clean end
(Connect returns io.EOF) just closes the channel; any other transport
termination pushes one final connection-error item first. -/
inductive StreamEnding where
  | clean
  | transportFailure (msg : String)
  deriving DecidableEq

/-- Everything the producer pushes for a finished stream of the given frames,
in wire order, before closing the channel. -/
def producerItems (frames : List SseFrame) (ending : StreamEnding) :
    List GenericBotSseEventWrapper :=
  frames.map decodeFrame ++
    match ending with
    | StreamEnding.clean => []
    | StreamEnding.transportFailure m => [⟨none, some ("SSE connection failed: " ++ m)⟩]

/-- Consumer state at the start of iteration over a stream whose producer has
already decoded all frames and finished: channel holds every pushed item,
channel closed, no current event, no error, not closed, context alive. -/
def openStream (frames : List SseFrame) (ending : StreamEnding) : StreamState :=
  { items := producerItems frames ending
    chanClosed := true
    currentEvent := none
    err := none
    closed := false
    ctxCancelled := false }

/-- Current() value after a sequence of delivered events, starting from cur:
the last delivered event, or cur if none were. -/
def lastCurrent (cur : Option GenericBotSseEvent) :
    List GenericBotSseEvent → Option GenericBotSseEvent
  | [] => cur
  | e :: rest => lastCurrent (some e) rest

/-- An injectable HTTP transport; only its presence and timeout are visible at
this layer (pkg/client/config.go). -/
structure HttpClient where
  timeoutSeconds : Nat
  deriving DecidableEq

/-- Go: BotProviderConfig (pkg/client/config.go). -/
structure BotProviderConfig where
  HTTPClient : Option HttpClient
  EdgeServerHost : String
  Namespace : String
  BotProviderName : String
  BotProviderApiKey : String
  deriving DecidableEq

/-- Go: type PostBackAction string (pkg/models). -/
abbrev PostBackAction := String

def PostBackActionNone : PostBackAction := "NONE"

def PostBackActionResetChanel : PostBackAction := "RESET_CHANNEL"

/-- Go: GenericBotMessage (pkg/models). The free-form payload map is opaque
to the client. -/
structure GenericBotMessage where
  CustomChannelId : String
  CustomMessageId : String
  Text : String
  Action : PostBackAction
  BlobIds : List String
  Payload : List (String × OpaqueJson)
  deriving DecidableEq

/-- Result of NewStreaming: the returned handle or error, plus whether an SSE
connection attempt was initiated (connect() called). -/
structure OpenResult where
  handle : Option StreamState
  openErr : Option String
  connectionAttempted : Bool
  deriving DecidableEq

/-- The handle NewStreaming returns on success: nothing received yet, channel
open, no current event, no error, not closed, context alive. -/
def initialHandle : StreamState :=
  { items := []
    chanClosed := false
    currentEvent := none
    err := none
    closed := false
    ctxCancelled := false }

/-- Go: NewStreaming (streamer.go lines 41-72). The nil checks on config and
message happen before the SSE client is built and before connect() is called.
Marshalling the message and building the HTTP request are total here (a
GenericBotMessage of strings and JSON-safe payloads always marshals), so
connect() succeeds and the producer goroutine is started. -/
def NewStreaming (config : Option BotProviderConfig)
    (message : Option GenericBotMessage) : OpenResult :=
  match config with
  | none => ⟨none, some ("config cannot be nil"), false⟩
  | some _ =>
    match message with
    | none => ⟨none, some ("message cannot be nil"), false⟩
    | some _ => ⟨some initialHandle, none, true⟩

/-- Go: the uniform envelope apiResponse[T] (bot_provider.go lines 17-22). -/
structure ApiEnvelope (T : Type) where
  IsSuccess : Bool
  Data : T
  Error : Option String
  ErrorCode : Option String
  deriving DecidableEq

/-- Go: responseError (bot_provider.go lines 301-312). -/
def responseError (errMsg errCode : Option String) : String :=
  match errMsg, errCode with
  | none, none => "unknown error"
  | some m, some c => m ++ " (" ++ c ++ ")"
  | some m, none => m
  | none, some c => c

/-- Go: GenericBotReply (pkg/models/edge_api.go). -/
structure GenericBotReply where
  RequestId : String
  Namespace : String
  BotProviderName : String
  CustomChannelId : String
  Messages : List BufferedMessage
  ErrDetail : Option ErrorDetail
  deriving DecidableEq

/-- Go: type FileType string and Blob (pkg/models/edge_api.go). -/
abbrev FileType := String

structure Blob where
  ChannelId : String
  BlobId : String
  FileType : FileType
  FileName : Option String
  Size : Int
  Mime : String
  deriving DecidableEq

/-- SendMessage's handling of an arrived, well-formed envelope
(bot_provider.go lines 67-77): non-200 status or isSuccess = false yields one
composed error, otherwise the reply data. -/
def sendMessageOutcome (status : Nat) (payload : ApiEnvelope GenericBotReply) :
    Except String GenericBotReply :=
  if status ≠ 200 ∨ payload.IsSuccess = false then
    Except.error ("send message failed (" ++ toString status ++ "): " ++
      responseError payload.Error payload.ErrorCode)
  else
    Except.ok payload.Data

/-- TriggerJSON's handling of an arrived, well-formed envelope
(bot_provider.go lines 110-128). Decoding of a non-empty raw data value into
an interface\x7b\x7d is kept abstract (the claims touch only the failure
path). -/
def triggerJSONOutcome (status : Nat) (wrapper : ApiEnvelope OpaqueJson) :
    Except String (Option OpaqueJson) :=
  if status ≠ 200 ∨ wrapper.IsSuccess = false then
    Except.error ("trigger json failed (" ++ toString status ++ "): " ++
      responseError wrapper.Error wrapper.ErrorCode)
  else if wrapper.Data.raw.length = 0 ∨ wrapper.Data.raw = "null" then
    Except.ok none
  else
    Except.ok (some wrapper.Data)

/-- TriggerForm's handling of an arrived, well-formed envelope
(bot_provider.go lines 202-220). -/
def triggerFormOutcome (status : Nat) (wrapper : ApiEnvelope OpaqueJson) :
    Except String (Option OpaqueJson) :=
  if status ≠ 200 ∨ wrapper.IsSuccess = false then
    Except.error ("trigger form failed (" ++ toString status ++ "): " ++
      responseError wrapper.Error wrapper.ErrorCode)
  else if wrapper.Data.raw.length = 0 ∨ wrapper.Data.raw = "null" then
    Except.ok none
  else
    Except.ok (some wrapper.Data)

/-- UploadBlob's handling of an arrived, well-formed envelope
(bot_provider.go lines 285-298). -/
def uploadBlobOutcome (status : Nat) (payload : ApiEnvelope (List Blob)) :
    Except String Blob :=
  if status ≠ 200 ∨ payload.IsSuccess = false then
    Except.error ("upload blob failed (" ++ toString status ++ "): " ++
      responseError payload.Error payload.ErrorCode)
  else
    match payload.Data with
    | [] => Except.error ("upload blob succeeded but no blob metadata returned")
    | b :: _ => Except.ok b

/-- hay contains needle as a contiguous substring. -/
def strContains (hay needle : String) : Prop :=
  needle.data <:+: hay.data

instance (hay needle : String) : Decidable (strContains hay needle) :=
  inferInstanceAs (Decidable (needle.data <:+: hay.data))

/-- Primitive operations of one iterator method, in program order, for the
static locking model: mutex acquire/release, the blocking select on the
channel and ctx.Done(), and accesses to the mutex-guarded fields. -/
inductive LockOp where
  | lock
  | unlock
  | chanWait
  | stateRead
  | stateWrite
  deriving DecidableEq

/-- Next (streamer.go lines 154-187): Lock; defer Unlock; read closed/err;
block in the select; write currentEvent or err; return (deferred unlock). -/
def nextOps : List LockOp :=
  [LockOp.lock, LockOp.stateRead, LockOp.chanWait, LockOp.stateWrite, LockOp.unlock]

/-- Current (streamer.go lines 190-194). -/
def currentOps : List LockOp :=
  [LockOp.lock, LockOp.stateRead, LockOp.unlock]

/-- Err (streamer.go lines 197-201). -/
def errOps : List LockOp :=
  [LockOp.lock, LockOp.stateRead, LockOp.unlock]

/-- Close (streamer.go lines 204-218). -/
def closeOps : List LockOp :=
  [LockOp.lock, LockOp.stateRead, LockOp.stateWrite, LockOp.unlock]

/-- Scan of an op list tracking mutex depth: (final depth, a chanWait occurred
at positive depth, depth ever went negative, a state access occurred at depth
zero). -/
def lockScan (ops : List LockOp) : Nat × Bool × Bool × Bool :=
  ops.foldl
    (fun acc op =>
      match op with
      | LockOp.lock => (acc.1 + 1, acc.2.1, acc.2.2.1, acc.2.2.2)
      | LockOp.unlock => (acc.1 - 1, acc.2.1, acc.2.2.1 || decide (acc.1 = 0), acc.2.2.2)
      | LockOp.chanWait => (acc.1, acc.2.1 || decide (0 < acc.1), acc.2.2.1, acc.2.2.2)
      | _ => (acc.1, acc.2.1, acc.2.2.1, acc.2.2.2 || decide (acc.1 = 0)))
    (0, false, false, false)

/-- The method blocks on the channel/ctx select while holding the mutex. -/
def waitsWhileLockHeld (ops : List LockOp) : Bool :=
  (lockScan ops).2.1

/-- Lock/unlock calls are balanced: never released when not held, and not held
at return. -/
def balancedLocks (ops : List LockOp) : Bool :=
  (lockScan ops).1 = 0 && !(lockScan ops).2.2.1

/-- Every access to the guarded fields happens with the mutex held. -/
def accessesOnlyUnderLock (ops : List LockOp) : Bool :=
  !(lockScan ops).2.2.2

/-- A concrete buffered message, for witnesses. -/
def bufMsg0 : BufferedMessage :=
  ⟨"s1", "m1", "Hello", ⟨"null"⟩, false, none, none⟩

/-- A concrete well-formed message.start event. -/
def ev0 : GenericBotSseEvent :=
  ⟨SseEventTypeMessageStart, "r1", "e1", "ns1", "bp1", "ch1",
   { emptyFact with MessageStart := some ⟨bufMsg0⟩ }⟩

/-- A concrete well-formed run.done event. -/
def ev1 : GenericBotSseEvent :=
  ⟨SseEventTypeRunDone, "r1", "e2", "ns1", "bp1", "ch1",
   { emptyFact with RunDone := some ⟨⟩ }⟩

/-- A concrete ErrorDetail, for witnesses. -/
def errDetail0 : ErrorDetail :=
  ⟨"boom happened", "E500", "", ⟨"ns1", "wf1", "proc1", "type1", "cfg1", "p1"⟩⟩

/-- A concrete well-formed run.error event (RunError fact populated). -/
def evRunError : GenericBotSseEvent :=
  ⟨SseEventTypeRunError, "r1", "e3", "ns1", "bp1", "ch1",
   { emptyFact with RunError := some ⟨errDetail0⟩ }⟩

/-- A decoded event whose type tag is run.error but whose RunError fact
variant is absent, which the all-optional-fields fact struct permits. -/
def evRunErrorNilFact : GenericBotSseEvent :=
  ⟨SseEventTypeRunError, "r1", "e4", "ns1", "bp1", "ch1", emptyFact⟩

/-- A concrete outbound message, for witnesses. -/
def msg0 : GenericBotMessage :=
  ⟨"c1", "m1", "hi", PostBackActionNone, [], []⟩

/-- A concrete configuration, for witnesses. -/
def cfg0 : BotProviderConfig :=
  ⟨none, "http://localhost:8080", "default", "my-bot", "key"⟩

/-- A non-terminal stream state whose context has been cancelled while one
well-formed event sits in the channel: both select cases of Next can
proceed. -/
def cancelWithQueuedEvent : StreamState :=
  { items := [okWrap ev0]
    chanClosed := false
    currentEvent := none
    err := none
    closed := false
    ctxCancelled := true }

/-- The state Next reaches from cancelWithQueuedEvent when the select takes
the channel branch: the queued event is delivered. -/
def deliveredDespiteCancel : StreamState :=
  { items := []
    chanClosed := false
    currentEvent := some ev0
    err := none
    closed := false
    ctxCancelled := true }

/-- A cancelled stream state in which Next is blocked: no channel item, the
channel is open, and nothing terminal has happened. -/
def cancelledBlockedState : StreamState :=
  { items := []
    chanClosed := false
    currentEvent := none
    err := none
    closed := false
    ctxCancelled := true }

/-- The concrete failing envelope of the spec scenario for trigger-json. -/
def badPayloadEnvelope : ApiEnvelope OpaqueJson :=
  ⟨false, ⟨""⟩, some ("bad payload"), some ("E400")⟩

/-- A concrete empty reply payload, for witnesses. -/
def reply0 : GenericBotReply :=
  ⟨"", "", "", "", [], none⟩

/-- A concrete failing send-message envelope arriving with HTTP 500, for
witnesses. -/
def failEnvelope : ApiEnvelope GenericBotReply :=
  ⟨true, reply0, some ("backend down"), some ("E503")⟩

/-- A Next call on a stream that is closed or already errored returns false
and changes nothing (streamer.go lines 158-160). -/
theorem nextStep_terminal (s : StreamState)
    (h : s.closed = true ∨ s.err.isSome = true) :
    nextStep s = (NextOutcome.ret false, s) := by
  have hb : (s.closed || s.err.isSome) = true := by
    rcases h with h | h <;> simp [h]
  simp [nextStep, hb]

/-- A Next call delivering a well-formed, non-run.error event at the channel
front stores it as current and returns true (streamer.go lines 180-181). -/
theorem nextStep_ok_event (e : GenericBotSseEvent)
    (he : e.EventType ≠ SseEventTypeRunError)
    (items : List GenericBotSseEventWrapper) (cur : Option GenericBotSseEvent)
    (cc cx : Bool) :
    nextStep ⟨okWrap e :: items, cc, cur, none, false, cx⟩
      = (NextOutcome.ret true, ⟨items, cc, some e, none, false, cx⟩) := by
  simp [nextStep, recvReady, recvWrapper, okWrap, he]

/-- A Next call receiving a connection/decode error item stores it as the
terminal error and returns false (streamer.go lines 169-172). -/
theorem nextStep_conn_error (msg : String)
    (items : List GenericBotSseEventWrapper) (cur : Option GenericBotSseEvent)
    (cc cx : Bool) :
    nextStep ⟨⟨none, some msg⟩ :: items, cc, cur, none, false, cx⟩
      = (NextOutcome.ret false, ⟨items, cc, cur, some msg, false, cx⟩) := by
  simp [nextStep, recvReady, recvWrapper]

/-- A Next call receiving a run.error event with its RunError fact populated
stores the wrapped error and returns false (streamer.go lines 174-178). -/
theorem nextStep_run_error (e : GenericBotSseEvent)
    (he : e.EventType = SseEventTypeRunError)
    (f : GenericBotSseEventFactRunError) (hf : e.Fact.RunError = some f)
    (items : List GenericBotSseEventWrapper) (cur : Option GenericBotSseEvent)
    (cc cx : Bool) :
    nextStep ⟨okWrap e :: items, cc, cur, none, false, cx⟩
      = (NextOutcome.ret false, ⟨items, cc, cur, some (runErrorText f), false, cx⟩) := by
  simp [nextStep, recvReady, recvWrapper, okWrap, he, hf]

/-- A Next call on a drained, closed channel returns false with no error
(streamer.go lines 164-167). -/
theorem nextStep_drained (cur : Option GenericBotSseEvent) (cx : Bool) :
    nextStep ⟨[], true, cur, none, false, cx⟩
      = (NextOutcome.ret false, ⟨[], true, cur, none, false, cx⟩) := by
  simp [nextStep, recvReady]

/-- Iterating Next from a closed or errored state yields false forever and
never changes the state. -/
theorem runNext_terminal (s : StreamState)
    (h : s.closed = true ∨ s.err.isSome = true) : ∀ n : Nat,
    runNext s n = (List.replicate n (NextOutcome.ret false, s.currentEvent, s.err), s) := by
  intro n
  induction n with
  | zero => simp [runNext]
  | succ m ih => simp [runNext, nextStep_terminal s h, ih, List.replicate_succ]

/-- Iterating Next on a drained, closed channel yields false with no error
forever. -/
theorem runNext_drained (cur : Option GenericBotSseEvent) (cx : Bool) : ∀ n : Nat,
    runNext ⟨[], true, cur, none, false, cx⟩ n
      = (List.replicate n (NextOutcome.ret false, cur, none), ⟨[], true, cur, none, false, cx⟩) := by
  intro n
  induction n with
  | zero => simp [runNext]
  | succ m ih => simp [runNext, nextStep_drained, ih, List.replicate_succ]

/-- Driving Next through a prefix of well-formed, non-run.error events
delivers them in order (true, event stored as current, no error) and then
continues from the remaining items with the last event as current. -/
theorem runNext_ok_prefix (evs : List GenericBotSseEvent)
    (h : ∀ e ∈ evs, e.EventType ≠ SseEventTypeRunError) :
    ∀ (cur : Option GenericBotSseEvent) (rest : List GenericBotSseEventWrapper)
      (cc cx : Bool) (n : Nat),
    runNext ⟨evs.map okWrap ++ rest, cc, cur, none, false, cx⟩ (evs.length + n)
      = ((evs.map fun e => (NextOutcome.ret true, some e, (none : Option String)))
           ++ (runNext ⟨rest, cc, lastCurrent cur evs, none, false, cx⟩ n).1,
         (runNext ⟨rest, cc, lastCurrent cur evs, none, false, cx⟩ n).2) := by
  induction evs with
  | nil =>
    intro cur rest cc cx n
    simp [lastCurrent]
  | cons e tl ih =>
    intro cur rest cc cx n
    have he : e.EventType ≠ SseEventTypeRunError := h e (by simp)
    have htl : ∀ x ∈ tl, x.EventType ≠ SseEventTypeRunError :=
      fun x hx => h x (by simp [hx])
    have hlen : (e :: tl).length + n = (tl.length + n) + 1 := by
      simp [List.length_cons]
      omega
    rw [hlen]
    simp only [runNext, List.map_cons, List.cons_append,
      nextStep_ok_event e he (tl.map okWrap ++ rest) cur cc cx]
    simp [ih htl (some e) rest cc cx n, lastCurrent]

/-- Substring containment from an explicit decomposition of the haystack. -/
theorem strContains_intro (hay needle : String) (a b : List Char)
    (hEq : a ++ needle.data ++ b = hay.data) : strContains hay needle :=
  ⟨a, b, hEq⟩

/-- The error text Next stores for a run.error event contains the
ErrorDetail's code verbatim. -/
theorem runErrorText_contains_code (f : GenericBotSseEventFactRunError) :
    strContains (runErrorText f) f.Error.Code := by
  apply strContains_intro _ _
    (("SSE stream error: ").data ++ ("\x7b").data ++ f.Error.Message.data ++ (" ").data)
    ((" ").data ++ f.Error.Inner.data ++ (" ").data ++ f.Error.Location.goFmt.data ++ ("\x7d").data)
  simp [runErrorText, ErrorDetail.goFmt, String.data_append, List.append_assoc]

/-- The error text Next stores for a run.error event contains the
ErrorDetail's message verbatim. -/
theorem runErrorText_contains_message (f : GenericBotSseEventFactRunError) :
    strContains (runErrorText f) f.Error.Message := by
  apply strContains_intro _ _
    (("SSE stream error: ").data ++ ("\x7b").data)
    ((" ").data ++ f.Error.Code.data ++ (" ").data ++ f.Error.Inner.data ++ (" ").data ++
      f.Error.Location.goFmt.data ++ ("\x7d").data)
  simp [runErrorText, ErrorDetail.goFmt, String.data_append, List.append_assoc]

/-- Claim C1: for a stream whose producer decodes N well-formed events, none
of type run.error, followed by a clean end-of-stream, Next() returns true
exactly N times, Current() after each true return yields the events in wire
order, and the following Next() returns false with Err() = nil. -/
theorem streamer_clean_run_delivers_in_order (evs : List GenericBotSseEvent)
    (h : ∀ e ∈ evs, e.EventType ≠ SseEventTypeRunError) :
    runNext (openStream (evs.map SseFrame.ok) StreamEnding.clean) (evs.length + 1)
      = ((evs.map fun e => (NextOutcome.ret true, some e, (none : Option String)))
           ++ [(NextOutcome.ret false, lastCurrent none evs, none)],
         ⟨[], true, lastCurrent none evs, none, false, false⟩) := by
  have hopen : openStream (evs.map SseFrame.ok) StreamEnding.clean
      = ⟨evs.map okWrap ++ [], true, none, none, false, false⟩ := by
    simp [openStream, producerItems, okWrap, decodeFrame, Function.comp]
  rw [hopen, runNext_ok_prefix evs h none [] true false 1]
  simp [runNext_drained]

/-- Claim C2: a frame decoding to a (well-formed) run.error event terminates
the iteration at that frame: Next() returns false there, the event is never
stored as Current, and Err() is a non-nil error containing the ErrorDetail's
code and message as substrings. -/
theorem streamer_run_error_terminates_with_detail
    (pre : List GenericBotSseEvent)
    (hpre : ∀ x ∈ pre, x.EventType ≠ SseEventTypeRunError)
    (e : GenericBotSseEvent) (he : e.EventType = SseEventTypeRunError)
    (f : GenericBotSseEventFactRunError) (hf : e.Fact.RunError = some f)
    (post : List SseFrame) (k : Nat) :
    runNext (openStream (pre.map SseFrame.ok ++ SseFrame.ok e :: post) StreamEnding.clean)
        (pre.length + (1 + k))
      = ((pre.map fun x => (NextOutcome.ret true, some x, (none : Option String)))
           ++ List.replicate (1 + k)
               (NextOutcome.ret false, lastCurrent none pre, some (runErrorText f)),
         ⟨post.map decodeFrame, true, lastCurrent none pre, some (runErrorText f), false, false⟩)
      ∧ strContains (runErrorText f) f.Error.Code
      ∧ strContains (runErrorText f) f.Error.Message := by
  refine ⟨?_, runErrorText_contains_code f, runErrorText_contains_message f⟩
  have hopen : openStream (pre.map SseFrame.ok ++ SseFrame.ok e :: post) StreamEnding.clean
      = ⟨pre.map okWrap ++ (okWrap e :: post.map decodeFrame), true, none, none, false, false⟩ := by
    simp [openStream, producerItems, okWrap, decodeFrame, Function.comp]
  rw [hopen, runNext_ok_prefix pre hpre none (okWrap e :: post.map decodeFrame) true false (1 + k)]
  have hstep : runNext
      ⟨okWrap e :: post.map decodeFrame, true, lastCurrent none pre, none, false, false⟩ (1 + k)
      = (List.replicate (1 + k)
           (NextOutcome.ret false, lastCurrent none pre, some (runErrorText f)),
         ⟨post.map decodeFrame, true, lastCurrent none pre, some (runErrorText f), false, false⟩) := by
    rw [Nat.add_comm 1 k]
    simp [runNext, nextStep_run_error e he f hf,
      runNext_terminal ⟨post.map decodeFrame, true, lastCurrent none pre,
        some (runErrorText f), false, false⟩ (Or.inr (by simp)) k,
      List.replicate_succ]
  rw [hstep]

/-- Claim C3: if frame k is malformed JSON after k-1 well-formed non-run.error
frames, Next() returns true for frames 1..k-1 in order, then false at frame k
with a decode error in Err(); no later frame is ever delivered even though the
producer pushed items for them (they stay queued in the channel). -/
theorem streamer_malformed_frame_terminates
    (pre : List GenericBotSseEvent)
    (hpre : ∀ x ∈ pre, x.EventType ≠ SseEventTypeRunError)
    (m : String) (post : List SseFrame) (k : Nat) :
    runNext (openStream (pre.map SseFrame.ok ++ SseFrame.malformed m :: post) StreamEnding.clean)
        (pre.length + (1 + k))
      = ((pre.map fun x => (NextOutcome.ret true, some x, (none : Option String)))
           ++ List.replicate (1 + k)
               (NextOutcome.ret false, lastCurrent none pre,
                some ("failed to unmarshal event: " ++ m)),
         ⟨post.map decodeFrame, true, lastCurrent none pre,
          some ("failed to unmarshal event: " ++ m), false, false⟩) := by
  have hopen : openStream (pre.map SseFrame.ok ++ SseFrame.malformed m :: post) StreamEnding.clean
      = ⟨pre.map okWrap ++
          ((⟨none, some ("failed to unmarshal event: " ++ m)⟩ : GenericBotSseEventWrapper)
            :: post.map decodeFrame), true, none, none, false, false⟩ := by
    simp [openStream, producerItems, okWrap, decodeFrame, Function.comp]
  rw [hopen, runNext_ok_prefix pre hpre none _ true false (1 + k)]
  have hstep : runNext
      ⟨(⟨none, some ("failed to unmarshal event: " ++ m)⟩ : GenericBotSseEventWrapper)
          :: post.map decodeFrame, true, lastCurrent none pre, none, false, false⟩ (1 + k)
      = (List.replicate (1 + k)
           (NextOutcome.ret false, lastCurrent none pre,
            some ("failed to unmarshal event: " ++ m)),
         ⟨post.map decodeFrame, true, lastCurrent none pre,
          some ("failed to unmarshal event: " ++ m), false, false⟩) := by
    rw [Nat.add_comm 1 k]
    simp [runNext, nextStep_conn_error ("failed to unmarshal event: " ++ m),
      runNext_terminal ⟨post.map decodeFrame, true, lastCurrent none pre,
        some ("failed to unmarshal event: " ++ m), false, false⟩ (Or.inr (by simp)) k,
      List.replicate_succ]
  rw [hstep]

/-- Witness for claim C1 at the concrete two-event stream [ev0, ev1]. -/
theorem streamer_clean_run_delivers_in_order_witness :
    (∀ e ∈ [ev0, ev1], e.EventType ≠ SseEventTypeRunError) ∧
    runNext (openStream ([ev0, ev1].map SseFrame.ok) StreamEnding.clean)
        ([ev0, ev1].length + 1)
      = (([ev0, ev1].map fun e => (NextOutcome.ret true, some e, (none : Option String)))
           ++ [(NextOutcome.ret false, lastCurrent none [ev0, ev1], none)],
         ⟨[], true, lastCurrent none [ev0, ev1], none, false, false⟩) :=
  ⟨by decide, streamer_clean_run_delivers_in_order [ev0, ev1] (by decide)⟩

/-- Witness for claim C2 at a concrete stream: one good event, then a
well-formed run.error event, then one more frame. -/
theorem streamer_run_error_terminates_with_detail_witness :
    runNext (openStream ([ev0].map SseFrame.ok ++ SseFrame.ok evRunError :: [SseFrame.ok ev1])
        StreamEnding.clean) ([ev0].length + (1 + 0))
      = (([ev0].map fun x => (NextOutcome.ret true, some x, (none : Option String)))
           ++ List.replicate (1 + 0)
               (NextOutcome.ret false, lastCurrent none [ev0],
                some (runErrorText ⟨errDetail0⟩)),
         ⟨[SseFrame.ok ev1].map decodeFrame, true, lastCurrent none [ev0],
          some (runErrorText ⟨errDetail0⟩), false, false⟩)
      ∧ strContains (runErrorText ⟨errDetail0⟩) errDetail0.Code
      ∧ strContains (runErrorText ⟨errDetail0⟩) errDetail0.Message :=
  streamer_run_error_terminates_with_detail [ev0] (by decide) evRunError (by decide)
    ⟨errDetail0⟩ rfl [SseFrame.ok ev1] 0

/-- Witness for claim C3 at a concrete stream: one good event, one malformed
frame, one more good frame left undelivered, observed for two extra calls. -/
theorem streamer_malformed_frame_terminates_witness :
    runNext (openStream ([ev0].map SseFrame.ok ++
        SseFrame.malformed ("unexpected end of JSON input") :: [SseFrame.ok ev1])
        StreamEnding.clean) ([ev0].length + (1 + 2))
      = (([ev0].map fun x => (NextOutcome.ret true, some x, (none : Option String)))
           ++ List.replicate (1 + 2)
               (NextOutcome.ret false, lastCurrent none [ev0],
                some ("failed to unmarshal event: " ++ "unexpected end of JSON input")),
         ⟨[SseFrame.ok ev1].map decodeFrame, true, lastCurrent none [ev0],
          some ("failed to unmarshal event: " ++ "unexpected end of JSON input"),
          false, false⟩) :=
  streamer_malformed_frame_terminates [ev0] (by decide)
    ("unexpected end of JSON input") [SseFrame.ok ev1] 2

/-- Claim C4: NewStreaming with an absent configuration or message returns a
non-nil error synchronously with no handle and no connection attempt, and in
general it never returns both a handle and a nil error inconsistently: a
handle is returned exactly when the error is nil. -/
theorem new_streaming_nil_checks :
    (∀ (cfg : Option BotProviderConfig) (msg : Option GenericBotMessage),
      cfg = none ∨ msg = none →
        (NewStreaming cfg msg).openErr ≠ none ∧
        (NewStreaming cfg msg).handle = none ∧
        (NewStreaming cfg msg).connectionAttempted = false)
    ∧ (∀ (cfg : Option BotProviderConfig) (msg : Option GenericBotMessage),
        (NewStreaming cfg msg).handle ≠ none ↔ (NewStreaming cfg msg).openErr = none) := by
  constructor
  · intro cfg msg h
    rcases h with h | h
    · subst h
      simp [NewStreaming]
    · subst h
      cases cfg <;> simp [NewStreaming]
  · intro cfg msg
    cases cfg <;> cases msg <;> simp [NewStreaming]

/-- Witness for claim C4: a nil message with a present configuration. -/
theorem new_streaming_nil_checks_witness :
    (NewStreaming (some cfg0) none).openErr ≠ none ∧
    (NewStreaming (some cfg0) none).handle = none ∧
    (NewStreaming (some cfg0) none).connectionAttempted = false :=
  new_streaming_nil_checks.1 (some cfg0) none (Or.inr rfl)

/-- Claim C6: Close() always returns a nil error from any state; the first
Close marks the stream closed and clears only the stored current-event
reference (items, err, chanClosed, ctxCancelled untouched); a Close on an
already-closed stream changes nothing (idempotence); and after Close() every
Next() transition returns false without panicking and without changing the
state, for arbitrarily many calls. -/
theorem close_idempotent_and_terminal : ∀ (s : StreamState) (n : Nat),
    (closeStream s).1 = none
    ∧ (closeStream s).2.closed = true
    ∧ (s.closed = false →
        (closeStream s).2 = { s with closed := true, currentEvent := none })
    ∧ (s.closed = true → (closeStream s).2 = s)
    ∧ closeStream (closeStream s).2 = (none, (closeStream s).2)
    ∧ (∀ (o : NextOutcome) (s2 : StreamState),
        NextStep (closeStream s).2 o s2 → o = NextOutcome.ret false ∧ s2 = (closeStream s).2)
    ∧ runNext (closeStream s).2 n
        = (List.replicate n
            (NextOutcome.ret false, (closeStream s).2.currentEvent, (closeStream s).2.err),
           (closeStream s).2) := by
  intro s n
  have hclosed : (closeStream s).2.closed = true := by
    by_cases h : s.closed <;> simp [closeStream, h]
  refine ⟨?_, hclosed, ?_, ?_, ?_, ?_, ?_⟩
  · by_cases h : s.closed <;> simp [closeStream, h]
  · intro h
    simp [closeStream, h]
  · intro h
    simp [closeStream, h]
  · by_cases h : s.closed <;> simp [closeStream, h]
  · intro o s2 hstep
    cases hstep with
    | terminal h => exact ⟨rfl, rfl⟩
    | chanRecv h1 h2 h3 => rw [hclosed] at h1; exact absurd h1 (by simp)
    | ctxDone h1 h2 h3 => rw [hclosed] at h1; exact absurd h1 (by simp)
  · exact runNext_terminal (closeStream s).2 (Or.inl hclosed) n

/-- Witness for claim C6 at a concrete open state with a stored current
event and a queued item, for three post-close calls. -/
theorem close_idempotent_and_terminal_witness :
    (closeStream ⟨[okWrap ev1], false, some ev0, none, false, false⟩).1 = none
    ∧ (closeStream ⟨[okWrap ev1], false, some ev0, none, false, false⟩).2.closed = true
    ∧ ((⟨[okWrap ev1], false, some ev0, none, false, false⟩ : StreamState).closed = false →
        (closeStream ⟨[okWrap ev1], false, some ev0, none, false, false⟩).2
          = { (⟨[okWrap ev1], false, some ev0, none, false, false⟩ : StreamState) with
              closed := true, currentEvent := none })
    ∧ ((⟨[okWrap ev1], false, some ev0, none, false, false⟩ : StreamState).closed = true →
        (closeStream ⟨[okWrap ev1], false, some ev0, none, false, false⟩).2
          = ⟨[okWrap ev1], false, some ev0, none, false, false⟩)
    ∧ closeStream (closeStream ⟨[okWrap ev1], false, some ev0, none, false, false⟩).2
        = (none, (closeStream ⟨[okWrap ev1], false, some ev0, none, false, false⟩).2)
    ∧ (∀ (o : NextOutcome) (s2 : StreamState),
        NextStep (closeStream ⟨[okWrap ev1], false, some ev0, none, false, false⟩).2 o s2 →
          o = NextOutcome.ret false
          ∧ s2 = (closeStream ⟨[okWrap ev1], false, some ev0, none, false, false⟩).2)
    ∧ runNext (closeStream ⟨[okWrap ev1], false, some ev0, none, false, false⟩).2 3
        = (List.replicate 3
            (NextOutcome.ret false,
             (closeStream ⟨[okWrap ev1], false, some ev0, none, false, false⟩).2.currentEvent,
             (closeStream ⟨[okWrap ev1], false, some ev0, none, false, false⟩).2.err),
           (closeStream ⟨[okWrap ev1], false, some ev0, none, false, false⟩).2) :=
  close_idempotent_and_terminal ⟨[okWrap ev1], false, some ev0, none, false, false⟩ 3

/-- Counterexample to claim C5 as stated: in the concrete non-terminal state
cancelWithQueuedEvent the context is cancelled, yet Next's select may take the
ready channel branch and return true, delivering the queued event instead of
the cancellation — Go chooses pseudo-randomly between ready select cases. -/
theorem next_cancelled_counterexample :
    cancelWithQueuedEvent.closed = false
    ∧ cancelWithQueuedEvent.err = none
    ∧ cancelWithQueuedEvent.ctxCancelled = true
    ∧ NextStep cancelWithQueuedEvent (NextOutcome.ret true) deliveredDespiteCancel
    ∧ ¬ (∀ (o : NextOutcome) (s2 : StreamState),
          NextStep cancelWithQueuedEvent o s2 → o = NextOutcome.ret false) := by
  have hready : cancelWithQueuedEvent.items ≠ [] ∨ cancelWithQueuedEvent.chanClosed = true := by
    simp [cancelWithQueuedEvent]
  have h := NextStep.chanRecv cancelWithQueuedEvent rfl rfl hready
  have he : recvReady cancelWithQueuedEvent = (NextOutcome.ret true, deliveredDespiteCancel) := by
    decide
  rw [he] at h
  refine ⟨rfl, rfl, rfl, h, ?_⟩
  intro hall
  have := hall (NextOutcome.ret true) deliveredDespiteCancel h
  simp at this

/-- Claim C5 (amended): if the context is cancelled while no channel item is
available and the channel is not closed (the situation of a blocked or
about-to-block Next), every possible Next transition returns false and stores
the cancellation error; and once that error is stored, every subsequent Next
transition returns false without further change. -/
theorem next_cancelled_blocked_observes_cancellation (s : StreamState)
    (hclosed : s.closed = false) (herr : s.err = none) (hcanc : s.ctxCancelled = true)
    (hempty : s.items = []) (hopen : s.chanClosed = false) :
    NextStep s (NextOutcome.ret false) { s with err := some ctxCanceledText }
    ∧ (∀ (o : NextOutcome) (s2 : StreamState), NextStep s o s2 →
        o = NextOutcome.ret false ∧ s2.err = some ctxCanceledText)
    ∧ (∀ (o : NextOutcome) (s2 : StreamState),
        NextStep { s with err := some ctxCanceledText } o s2 →
        o = NextOutcome.ret false ∧ s2 = { s with err := some ctxCanceledText }) := by
  refine ⟨NextStep.ctxDone s hclosed herr hcanc, ?_, ?_⟩
  · intro o s2 h
    cases h with
    | terminal h =>
      rcases h with h | h
      · rw [hclosed] at h
        exact absurd h (by simp)
      · rw [herr] at h
        exact absurd h (by simp)
    | chanRecv h1 h2 h3 =>
      rcases h3 with h | h
      · exact absurd hempty h
      · rw [hopen] at h
        exact absurd h (by simp)
    | ctxDone h1 h2 h3 => exact ⟨rfl, rfl⟩
  · intro o s2 h
    cases h with
    | terminal h => exact ⟨rfl, rfl⟩
    | chanRecv h1 h2 h3 => exact absurd h2 (by simp)
    | ctxDone h1 h2 h3 => exact absurd h2 (by simp)

/-- Witness for the amended claim C5 at the concrete blocked cancelled
state. -/
theorem next_cancelled_blocked_observes_cancellation_witness :
    NextStep cancelledBlockedState (NextOutcome.ret false)
      { cancelledBlockedState with err := some ctxCanceledText }
    ∧ (∀ (o : NextOutcome) (s2 : StreamState), NextStep cancelledBlockedState o s2 →
        o = NextOutcome.ret false ∧ s2.err = some ctxCanceledText)
    ∧ (∀ (o : NextOutcome) (s2 : StreamState),
        NextStep { cancelledBlockedState with err := some ctxCanceledText } o s2 →
        o = NextOutcome.ret false
        ∧ s2 = { cancelledBlockedState with err := some ctxCanceledText }) :=
  next_cancelled_blocked_observes_cancellation cancelledBlockedState rfl rfl rfl rfl rfl

/-- responseError includes the remote error message verbatim when present. -/
theorem responseError_contains_msg (em ec : Option String) (m : String)
    (hm : em = some m) : strContains (responseError em ec) m := by
  subst hm
  cases ec with
  | none => exact strContains_intro _ _ [] [] (by simp [responseError])
  | some c =>
    exact strContains_intro _ _ []
      ((" (").data ++ c.data ++ (")").data)
      (by simp [responseError, String.data_append, List.append_assoc])

/-- responseError includes the remote error code verbatim when present. -/
theorem responseError_contains_code (em ec : Option String) (c : String)
    (hc : ec = some c) : strContains (responseError em ec) c := by
  subst hc
  cases em with
  | none => exact strContains_intro _ _ [] [] (by simp [responseError])
  | some m =>
    exact strContains_intro _ _
      (m.data ++ (" (").data) ((")").data)
      (by simp [responseError, String.data_append, List.append_assoc])

/-- Substring containment is preserved by prepending. -/
theorem strContains_append_left (a t needle : String)
    (h : strContains t needle) : strContains (a ++ t) needle := by
  obtain ⟨u, v, huv⟩ := h
  refine ⟨a.data ++ u, v, ?_⟩
  rw [String.data_append, ← huv]
  simp [List.append_assoc]

/-- Claim C7: each synchronous call (send-message, trigger-json, trigger-form,
upload-blob) turns a non-200 status or an isSuccess = false envelope into a
single composed error containing the remote error message and code (when
present); in particular trigger-json on HTTP 200 with envelope
isSuccess = false, error bad payload, errorCode E400 yields an error whose
text contains both. -/
theorem sync_envelope_failures_compose_error :
    (∀ (status : Nat) (p : ApiEnvelope GenericBotReply),
       status ≠ 200 ∨ p.IsSuccess = false →
       ∃ t, sendMessageOutcome status p = Except.error t
         ∧ (∀ m, p.Error = some m → strContains t m)
         ∧ (∀ c, p.ErrorCode = some c → strContains t c))
    ∧ (∀ (status : Nat) (w : ApiEnvelope OpaqueJson),
       status ≠ 200 ∨ w.IsSuccess = false →
       ∃ t, triggerJSONOutcome status w = Except.error t
         ∧ (∀ m, w.Error = some m → strContains t m)
         ∧ (∀ c, w.ErrorCode = some c → strContains t c))
    ∧ (∀ (status : Nat) (w : ApiEnvelope OpaqueJson),
       status ≠ 200 ∨ w.IsSuccess = false →
       ∃ t, triggerFormOutcome status w = Except.error t
         ∧ (∀ m, w.Error = some m → strContains t m)
         ∧ (∀ c, w.ErrorCode = some c → strContains t c))
    ∧ (∀ (status : Nat) (p : ApiEnvelope (List Blob)),
       status ≠ 200 ∨ p.IsSuccess = false →
       ∃ t, uploadBlobOutcome status p = Except.error t
         ∧ (∀ m, p.Error = some m → strContains t m)
         ∧ (∀ c, p.ErrorCode = some c → strContains t c))
    ∧ (∃ t, triggerJSONOutcome 200 badPayloadEnvelope = Except.error t
         ∧ strContains t ("bad payload") ∧ strContains t ("E400")) := by
  have hjson : ∀ (status : Nat) (w : ApiEnvelope OpaqueJson),
      status ≠ 200 ∨ w.IsSuccess = false →
      ∃ t, triggerJSONOutcome status w = Except.error t
        ∧ (∀ m, w.Error = some m → strContains t m)
        ∧ (∀ c, w.ErrorCode = some c → strContains t c) := by
    intro status w h
    refine ⟨_, by rw [triggerJSONOutcome, if_pos h], ?_, ?_⟩
    · intro m hm
      exact strContains_append_left _ _ _ (responseError_contains_msg _ _ m hm)
    · intro c hc
      exact strContains_append_left _ _ _ (responseError_contains_code _ _ c hc)
  refine ⟨?_, hjson, ?_, ?_, ?_⟩
  · intro status p h
    refine ⟨_, by rw [sendMessageOutcome, if_pos h], ?_, ?_⟩
    · intro m hm
      exact strContains_append_left _ _ _ (responseError_contains_msg _ _ m hm)
    · intro c hc
      exact strContains_append_left _ _ _ (responseError_contains_code _ _ c hc)
  · intro status w h
    refine ⟨_, by rw [triggerFormOutcome, if_pos h], ?_, ?_⟩
    · intro m hm
      exact strContains_append_left _ _ _ (responseError_contains_msg _ _ m hm)
    · intro c hc
      exact strContains_append_left _ _ _ (responseError_contains_code _ _ c hc)
  · intro status p h
    refine ⟨_, by rw [uploadBlobOutcome, if_pos h], ?_, ?_⟩
    · intro m hm
      exact strContains_append_left _ _ _ (responseError_contains_msg _ _ m hm)
    · intro c hc
      exact strContains_append_left _ _ _ (responseError_contains_code _ _ c hc)
  · obtain ⟨t, ht, hm, hc⟩ := hjson 200 badPayloadEnvelope (Or.inr rfl)
    exact ⟨t, ht, hm ("bad payload") rfl, hc ("E400") rfl⟩

/-- Witness for claim C7: a send-message envelope arriving with HTTP 500. -/
theorem sync_envelope_failures_compose_error_witness :
    ∃ t, sendMessageOutcome 500 failEnvelope = Except.error t
      ∧ (∀ m, failEnvelope.Error = some m → strContains t m)
      ∧ (∀ c, failEnvelope.ErrorCode = some c → strContains t c) :=
  sync_envelope_failures_compose_error.1 500 failEnvelope (Or.inl (by decide))

/-- Counterexample to claim C8 as stated: the literal wire value of the first
event-type constant is asgard.run.init, not run.init (pkg/models, unnamed
part holding the SseEventType constants); the same asgard. prefix applies to
all ten. -/
theorem sse_event_type_values_counterexample :
    ¬ (SseEventTypeRunInit = "run.init") ∧ SseEventTypeRunInit = "asgard.run.init" := by
  constructor
  · decide
  · rfl

/-- Claim C8 (amended): the event type is drawn from a closed enumeration of
exactly ten distinct string constants whose literal wire values are the
claimed names prefixed with asgard. — asgard.run.init, asgard.run.done,
asgard.run.error, asgard.process.start, asgard.process.complete,
asgard.message.start, asgard.message.delta, asgard.message.complete,
asgard.tool_call.start, asgard.tool_call.complete. -/
theorem sse_event_type_closed_enum :
    sseEventTypeConstants
      = ["asgard.run.init", "asgard.run.done", "asgard.run.error",
         "asgard.process.start", "asgard.process.complete",
         "asgard.message.start", "asgard.message.delta", "asgard.message.complete",
         "asgard.tool_call.start", "asgard.tool_call.complete"]
    ∧ sseEventTypeConstants.length = 10
    ∧ sseEventTypeConstants.Nodup := by
  refine ⟨rfl, rfl, ?_⟩
  decide

/-- Counterexample to claim C9 as stated: Next acquires the mutex and holds
it across the blocking select on the channel and ctx.Done() (streamer.go
lines 155-156 lock with a deferred unlock around the select of lines
162-186), so the lock IS held across the blocking wait. -/
theorem mutex_never_held_across_wait_counterexample :
    ¬ (waitsWhileLockHeld nextOps = false) ∧ waitsWhileLockHeld nextOps = true := by
  constructor
  · decide
  · decide

/-- Claim C9 (amended): the single mutex guards all shared state accesses of
Next/Current/Err/Close (each access happens with the lock held, and locking
is balanced in every method), but Next holds the mutex ACROSS the blocking
wait for the next channel item, and Close acquires the same mutex — so a
Close issued while Next is blocked waiting for an event can only complete
after that Next call returns. -/
theorem mutex_discipline_lock_held_across_wait :
    waitsWhileLockHeld nextOps = true
    ∧ waitsWhileLockHeld currentOps = false
    ∧ waitsWhileLockHeld errOps = false
    ∧ waitsWhileLockHeld closeOps = false
    ∧ balancedLocks nextOps = true
    ∧ balancedLocks currentOps = true
    ∧ balancedLocks errOps = true
    ∧ balancedLocks closeOps = true
    ∧ accessesOnlyUnderLock nextOps = true
    ∧ accessesOnlyUnderLock currentOps = true
    ∧ accessesOnlyUnderLock errOps = true
    ∧ accessesOnlyUnderLock closeOps = true
    ∧ LockOp.lock ∈ closeOps := by
  decide

/-- Receiving a wrapper that carries either a connection error or an event
whose run.error fact (when its type is run.error) is populated never
panics. -/
theorem recvWrapper_no_panic (s : StreamState) (w : GenericBotSseEventWrapper)
    (rest : List GenericBotSseEventWrapper)
    (hw1 : w.Event ≠ none ∨ w.ConnectionError ≠ none)
    (hw2 : ∀ e, w.Event = some e → e.EventType = SseEventTypeRunError →
        e.Fact.RunError ≠ none) :
    (recvWrapper s w rest).1 ≠ NextOutcome.panics := by
  unfold recvWrapper
  cases hce : w.ConnectionError with
  | some ce => simp
  | none =>
    cases hev : w.Event with
    | none =>
      rcases hw1 with h | h
      · exact absurd hev h
      · exact absurd hce h
    | some e =>
      by_cases ht : e.EventType = SseEventTypeRunError
      · cases hre : e.Fact.RunError with
        | none => exact absurd hre (hw2 e hev ht)
        | some f => simp [ht, hre]
      · simp [ht]

/-- Claim C10: Next accesses the RunError fact pointer unconditionally on the
run.error branch, so a decoded event whose type is run.error but whose
RunError fact variant is absent makes Next dereference a nil pointer (panic);
conversely, Next processes a ready channel item without panicking whenever
every queued item carries an event or a connection error and every run.error
event among them has its RunError fact populated. -/
theorem next_run_error_nil_fact_panics :
    (∀ (e : GenericBotSseEvent) (rest : List GenericBotSseEventWrapper)
       (cur : Option GenericBotSseEvent) (cc cx : Bool),
       e.EventType = SseEventTypeRunError → e.Fact.RunError = none →
       nextStep ⟨okWrap e :: rest, cc, cur, none, false, cx⟩
         = (NextOutcome.panics, ⟨rest, cc, cur, none, false, cx⟩))
    ∧ (∀ (s : StreamState),
        (∀ w ∈ s.items,
          (w.Event ≠ none ∨ w.ConnectionError ≠ none)
          ∧ ∀ e, w.Event = some e → e.EventType = SseEventTypeRunError →
              e.Fact.RunError ≠ none) →
        (nextStep s).1 ≠ NextOutcome.panics) := by
  constructor
  · intro e rest cur cc cx ht hf
    simp [nextStep, recvReady, recvWrapper, okWrap, ht, hf]
  · intro s hinv
    unfold nextStep
    by_cases hterm : (s.closed || s.err.isSome) = true
    · simp [hterm]
    · rw [if_neg (by simp [hterm])]
      rcases hitems : s.items with _ | ⟨w, rest⟩
      · cases hcc : s.chanClosed with
        | false =>
          simp only [hitems, hcc]
          by_cases hcx : s.ctxCancelled = true <;> simp [hcx]
        | true =>
          simp only [hitems, hcc]
          simp [recvReady, hitems]
      · have hw := hinv w (by rw [hitems]; exact List.mem_cons_self w rest)
        have hr := recvWrapper_no_panic s w rest hw.1 hw.2
        cases hcc : s.chanClosed with
        | false =>
          simp only [hitems, hcc]
          simpa [recvReady, hitems] using hr
        | true =>
          simp only [hitems, hcc]
          simpa [recvReady, hitems] using hr

/-- Witness for claim C10: the concrete run.error event with an absent
RunError fact panics at the head of the channel. -/
theorem next_run_error_nil_fact_panics_witness :
    evRunErrorNilFact.EventType = SseEventTypeRunError
    ∧ evRunErrorNilFact.Fact.RunError = none
    ∧ nextStep ⟨okWrap evRunErrorNilFact :: [], false, none, none, false, false⟩
        = (NextOutcome.panics, ⟨[], false, none, none, false, false⟩) :=
  ⟨rfl, rfl,
   next_run_error_nil_fact_panics.1 evRunErrorNilFact [] none false false rfl rfl⟩

end AsgardSdk
